import Mathlib

/-!
Shallow embedding of `amethyst-openvr` (`src/src/lib.rs`), the OpenVR backend
for the Amethyst engine's XR interface.

Modelling conventions:
* `f32` values are modelled as exact rationals `ℚ`; `f32::sqrt` is passed in
  as an explicit function parameter `sqrtFn : ℚ → ℚ` where needed, so that
  properties can be stated under the (true of IEEE sqrt) hypothesis that the
  square root of a non-negative number is non-negative.
* Rust `CStr`/`CString` model names are modelled as `String`; the lossless
  `to_str().ok()` conversion is modelled as always succeeding (it fails only
  on non-UTF-8 names, which no claim depends on).
* The native OpenVR layer (`System`, `Compositor`, `RenderModels`) is an
  explicit environment record `NativeEnv`: each native call the library makes
  is a field giving the native layer's response.
* A Rust panic (array index out of bounds, `Option::unwrap` on `None`) is
  modelled by returning `none` from the operation; an operation that cannot
  panic is a total function.
-/

namespace AmethystOpenVR

/-- A 3-vector of rationals, modelling `[f32; 3]` / `Vector3<f32>`. -/
abbrev Vec3 : Type := ℚ × ℚ × ℚ

/-- A 3x4 row-major matrix, modelling `[[f32; 4]; 3]`
(`device_to_absolute_tracking`, `eye_to_head_transform`). -/
abbrev Mat34 : Type := Fin 3 → Fin 4 → ℚ

/-- A 4x4 matrix, modelling `[[f32; 4]; 4]` / `Matrix4<f32>`. -/
abbrev Mat4 : Type := Fin 4 → Fin 4 → ℚ

/-- A 3x3 matrix (used for minors when inverting a `Mat4`). -/
abbrev Mat3 : Type := Fin 3 → Fin 3 → ℚ

/-- Model of `f32::signum` restricted to non-zero finite inputs: `1` for
positive, `-1` for negative (the `copysign` below only applies it to a
value it has already tested to be non-zero). -/
def signumQ (b : ℚ) : ℚ :=
  if 0 < b then 1 else -1

/-- Embedding of the private helper `copysign` (lib.rs:398-404):
`if b == 0.0 { 0.0 } else { a.abs() * b.signum() }`. -/
def copysign (a b : ℚ) : ℚ :=
  if b = 0 then 0 else |a| * signumQ b

/-- Cross product on `Vec3`, modelling `cgmath`'s `Vector3::cross`. -/
def cross (a b : Vec3) : Vec3 :=
  (a.2.1 * b.2.2 - a.2.2 * b.2.1,
   a.2.2 * b.1 - a.1 * b.2.2,
   a.1 * b.2.1 - a.2.1 * b.1)

/-- Embedding of `amethyst::xr::TrackerComponentVertex`. -/
structure TrackerComponentVertex where
  position : Vec3
  normal : Vec3
  tangent : Vec3
  tex_coord : ℚ × ℚ
deriving DecidableEq

/-- Embedding of `openvr::render_models::Vertex` (position, normal and a
2-component texture coordinate). -/
structure RVertex where
  position : Vec3
  normal : Vec3
  texture_coord : ℚ × ℚ
deriving DecidableEq

/-- Embedding of `convert_vertices` (lib.rs:407-422): tangent is synthesized
as `(normal × up) × up ... ` precisely `normal.cross(up).cross(normal)` with
`up = (0,1,0)`, and the texture V coordinate is flipped to `1 - v`. -/
def convert_vertices (vertices : List RVertex) : List TrackerComponentVertex :=
  vertices.map fun vert =>
    let normal_vector := vert.normal
    let up : Vec3 := (0, 1, 0)
    let tangent := cross (cross normal_vector up) normal_vector
    { position := vert.position
      normal := vert.normal
      tangent := tangent
      tex_coord := (vert.texture_coord.1, 1 - vert.texture_coord.2) }

/-- Embedding of `amethyst::xr::TrackerComponentTextureData`. -/
structure TrackerComponentTextureData where
  data : List ℕ
  size : ℕ × ℕ
deriving DecidableEq

/-- Embedding of `amethyst::xr::TrackerComponentModelInfo`. -/
structure TrackerComponentModelInfo where
  component_name : Option String
  vertices : List TrackerComponentVertex
  indices : List ℕ
  texture : Option TrackerComponentTextureData
deriving DecidableEq

/-- Embedding of `amethyst::xr::TrackerModelLoadStatus`. -/
inductive TrackerModelLoadStatus where
  | Pending : TrackerModelLoadStatus
  | Unavailable : TrackerModelLoadStatus
  | Available : List TrackerComponentModelInfo → TrackerModelLoadStatus
deriving DecidableEq

/-- Embedding of `amethyst::xr::TrackerCapabilities`. -/
structure TrackerCapabilities where
  render_model_components : ℕ
  is_camera : Bool
deriving DecidableEq

/-- Embedding of the w-first quaternion `Quaternion<f32>`
(`cgmath`'s `Quaternion::new(w, x, y, z)`). -/
structure Quat where
  w : ℚ
  x : ℚ
  y : ℚ
  z : ℚ
deriving DecidableEq

/-- Embedding of `amethyst::xr::TrackerPositionData`. -/
structure TrackerPositionData where
  position : Vec3
  rotation : Quat
  velocity : Vec3
  angular_velocity : Vec3
  valid : Bool
deriving DecidableEq

/-- Embedding of `amethyst::xr::XRTargetInfo`. -/
structure XRTargetInfo where
  size : ℕ × ℕ
  view_offset : Mat4
  projection : Mat4

/-- One slot's entry of `TrackedDevicePoses` (`openvr::TrackedDevicePose`):
the fields the library reads from a pose sample. -/
structure DevicePose where
  connected : Bool
  poseValid : Bool
  m : Mat34
  velocity : Vec3
  angularVelocity : Vec3

/-- Embedding of `openvr::TrackedDevicePoses`, a fixed array of 16 samples. -/
abbrev Poses : Type := Fin 16 → DevicePose

/-- Embedding of `openvr::render_models::RenderModel`: the data the library
reads from a loaded render model. -/
structure RenderModel where
  vertices : List RVertex
  indices : List ℕ
  diffuseTextureId : Option ℕ

/-- Embedding of a loaded `openvr::render_models::Texture`. -/
structure RawTexture where
  data : List ℕ
  size : ℕ × ℕ

/-- Which eye, modelling `openvr::Eye`. -/
inductive EyeSide where
  | Left : EyeSide
  | Right : EyeSide
deriving DecidableEq

/-- The native OpenVR layer's responses, one field per native call the
library makes.  Errors of the native layer are modelled as `ℕ` codes. -/
structure NativeEnv where
  /-- `compositor.wait_get_poses()`: `some` is the `render` pose array of a
  successful call, `none` is a failed call. -/
  waitGetPoses : Option Poses
  /-- `system.string_tracked_device_property(index, Prop_RenderModelName_String)`:
  `some name` on success, `none` on error. -/
  deviceProperty : ℕ → Option String
  /-- `render_models.component_count(name)`. -/
  componentCount : String → ℕ
  /-- `render_models.component_name(name, n)`. -/
  componentName : String → ℕ → Option String
  /-- `render_models.load_render_model(name)`: `.ok none` means the load is
  still in flight, `.error` is a hard failure. -/
  loadRenderModel : String → Except ℕ (Option RenderModel)
  /-- `render_models.load_texture(id)`: same convention. -/
  loadTexture : ℕ → Except ℕ (Option RawTexture)
  /-- `system.tracked_device_class(index) == TrackedDeviceClass::HMD`. -/
  isHMD : ℕ → Bool
  /-- `system.eye_to_head_transform(eye)`. -/
  eyeToHead : EyeSide → Mat34
  /-- `system.projection_matrix(eye, near, far)`. -/
  projectionMatrix : EyeSide → ℚ → ℚ → Mat4
  /-- `system.recommended_render_target_size()`. -/
  recommendedSize : ℕ × ℕ
  /-- `compositor.submit(eye, texture, ..)`: the result is only logged. -/
  submit : EyeSide → ℕ → Except ℕ Unit

/-- Embedding of the backend's mutable state (struct `OpenVR`, lib.rs:26-35);
the four native handles are part of `NativeEnv` instead. -/
structure OpenVR where
  tracked_device_poses : Option Poses
  registered_trackers : Option (Fin 16 → Bool)

/-- The state `init` leaves a freshly constructed backend in
(lib.rs:49-58): no snapshot, no registered-set. -/
def freshOpenVR : OpenVR :=
  { tracked_device_poses := none, registered_trackers := none }

/-- Embedding of `load_model` (lib.rs:61-111).  `Ok(None)` is a part whose
load (model or its diffuse texture) is still in flight; a texture load
*error* falls back to publishing geometry without a texture. -/
def load_model (env : NativeEnv) (model_name : String) :
    Except ℕ (Option TrackerComponentModelInfo) :=
  match env.loadRenderModel model_name with
  | .error e => .error e
  | .ok none => .ok none
  | .ok (some model) =>
    match model.diffuseTextureId with
    | some texture_id =>
      match env.loadTexture texture_id with
      | .ok (some texture) =>
        .ok (some { component_name := some model_name
                    vertices := convert_vertices model.vertices
                    indices := model.indices
                    texture := some { data := texture.data, size := texture.size } })
      | .ok none => .ok none
      | .error _ =>
        .ok (some { component_name := some model_name
                    vertices := convert_vertices model.vertices
                    indices := model.indices
                    texture := none })
    | none =>
      .ok (some { component_name := some model_name
                  vertices := convert_vertices model.vertices
                  indices := model.indices
                  texture := none })

/-- Embedding of `get_model_full` (lib.rs:113-125): a whole-device model is
not a component, so its name is cleared. -/
def get_model_full (env : NativeEnv) (name : String) : TrackerModelLoadStatus :=
  match load_model env name with
  | .ok (some model_info) =>
      .Available [{ model_info with component_name := none }]
  | .ok none => .Pending
  | .error _ => .Unavailable

/-- The lazy `(0..count).map(component_name(..).unwrap()).map(load_model).collect()`
pipeline of `get_model_components` (lib.rs:134-140), processing component
indices left to right.  Outer `none` models the `.unwrap()` panic on a
component name the native layer does not resolve; `.error` models the
short-circuit of `collect::<Result<_,_>>` at the first hard load failure
(later indices are then never pulled, so their names are never unwrapped). -/
def loadComponents (env : NativeEnv) (name : String) :
    List ℕ → Option (Except ℕ (List (Option TrackerComponentModelInfo)))
  | [] => some (.ok [])
  | n :: rest =>
    match env.componentName name n with
    | none => none
    | some component_name =>
      match load_model env component_name with
      | .error e => some (.error e)
      | .ok maybe_model =>
        match loadComponents env name rest with
        | none => none
        | some (.error e) => some (.error e)
        | some (.ok models) => some (.ok (maybe_model :: models))

/-- The aggregation loop of `get_model_components` (lib.rs:143-151): push
each loaded part; the first still-in-flight part makes the whole result
`Pending`, otherwise all parts are published in enumeration order. -/
def collect_infos : List (Option TrackerComponentModelInfo) → TrackerModelLoadStatus
  | [] => .Available []
  | none :: _ => .Pending
  | some model :: rest =>
    match collect_infos rest with
    | .Available infos => .Available (model :: infos)
    | status => status

/-- Embedding of `get_model_components` (lib.rs:127-155).  `none` models a
panic of the `component_name(..).unwrap()` call. -/
def get_model_components (env : NativeEnv) (name : String) :
    Option TrackerModelLoadStatus :=
  if env.componentCount name = 0 then
    some .Unavailable
  else
    match loadComponents env name (List.range (env.componentCount name)) with
    | none => none
    | some (.error _) => some .Unavailable
    | some (.ok models) => some (collect_infos models)

/-- Embedding of `get_tracker_capabilities` (lib.rs:157-172). -/
def get_tracker_capabilities (env : NativeEnv) (index : ℕ) : TrackerCapabilities :=
  let render_model_components :=
    match env.deviceProperty index with
    | some name => max (env.componentCount name) 1
    | none => 0
  { render_model_components := render_model_components
    is_camera := env.isHMD index }

/-- Embedding of `get_tracker_models` (lib.rs:319-333): a missing
render-model-name property is terminal `Unavailable`; an `Unavailable`
outcome of the component path falls back to the monolithic path. -/
def get_tracker_models (env : NativeEnv) (index : ℕ) :
    Option TrackerModelLoadStatus :=
  match env.deviceProperty index with
  | none => some .Unavailable
  | some render_model_name =>
    match get_model_components env render_model_name with
    | none => none
    | some .Unavailable => some (get_model_full env render_model_name)
    | some load_status => some load_status

/-- `wait` with an explicit native response (lib.rs:185-189): a successful
`wait_get_poses` overwrites the snapshot, a failure is only logged and the
previous snapshot is retained.  The event-drain loop (lib.rs:178-183) only
prints each event and is omitted: it touches no state. -/
def waitWith (resp : Option Poses) (s : OpenVR) : OpenVR :=
  match resp with
  | some poses => { s with tracked_device_poses := some poses }
  | none => s

/-- Embedding of `XRBackend::wait` (lib.rs:176-190). -/
def wait (env : NativeEnv) (s : OpenVR) : OpenVR :=
  waitWith env.waitGetPoses s

/-- The slots `get_new_trackers` reports, in loop order `i = 0..16`
(lib.rs:197-208 when a registered-set exists, lib.rs:216-227 on first call).
Each loop iteration reads and writes only index `i`, so the loop is the
filter of the ascending slot list. -/
def newlyAdded : Option (Fin 16 → Bool) → Option Poses → List (Fin 16)
  | some reg, some poses =>
    (List.finRange 16).filter fun i => !reg i && (poses i).connected
  | none, some poses =>
    (List.finRange 16).filter fun i => (poses i).connected
  | _, none => []

/-- The registered-set after `get_new_trackers`: newly connected slots are
flipped to `true`; on first call the set is created to mirror the snapshot
(all `false` when no snapshot exists yet, lib.rs:213/229). -/
def regAfterNew : Option (Fin 16 → Bool) → Option Poses → Option (Fin 16 → Bool)
  | some reg, some poses =>
    some fun i => if !reg i && (poses i).connected then true else reg i
  | some reg, none => some reg
  | none, some poses => some fun i => (poses i).connected
  | none, none => some fun _ => false

/-- Embedding of `XRBackend::get_new_trackers` (lib.rs:192-237).  With an
existing registered-set the result is `None` when no slot qualifies; on
first call it is always `Some` (even empty).  Each reported slot is paired
with its freshly computed capabilities. -/
def get_new_trackers (env : NativeEnv) (s : OpenVR) :
    Option (List (ℕ × TrackerCapabilities)) × OpenVR :=
  let added := newlyAdded s.registered_trackers s.tracked_device_poses
  let tracker_data : Option (List (Fin 16)) :=
    match s.registered_trackers with
    | some _ => if added.isEmpty then none else some added
    | none => some added
  (tracker_data.map fun trackers =>
      trackers.map fun id => (id.val, get_tracker_capabilities env id.val),
   { s with registered_trackers :=
       regAfterNew s.registered_trackers s.tracked_device_poses })

/-- The slots `get_removed_trackers` reports, in loop order `i = 0..16`
(lib.rs:244-254): registered slots whose sample is no longer connected. -/
def removedNow : Option (Fin 16 → Bool) → Option Poses → List (Fin 16)
  | some reg, some poses =>
    (List.finRange 16).filter fun i => reg i && !(poses i).connected
  | _, _ => []

/-- The registered-set after `get_removed_trackers`: reported slots are
flipped back to `false`. -/
def regAfterRemoved : Option (Fin 16 → Bool) → Option Poses → Option (Fin 16 → Bool)
  | some reg, some poses =>
    some fun i => if reg i && !(poses i).connected then false else reg i
  | some reg, none => some reg
  | none, _ => none

/-- Embedding of `XRBackend::get_removed_trackers` (lib.rs:239-259):
`None` when the registered-set was never initialized or no slot dropped. -/
def get_removed_trackers (s : OpenVR) : Option (List ℕ) × OpenVR :=
  match s.registered_trackers with
  | some _ =>
    let removed := removedNow s.registered_trackers s.tracked_device_poses
    ((if removed.isEmpty then none else some (removed.map Fin.val)),
     { s with registered_trackers :=
         regAfterRemoved s.registered_trackers s.tracked_device_poses })
  | none => (none, s)

/-- The zero pose returned before any snapshot exists (lib.rs:297-308). -/
def zeroPositionData : TrackerPositionData :=
  { position := (0, 0, 0)
    rotation := { w := 0, x := 0, y := 0, z := 0 }
    velocity := (0, 0, 0)
    angular_velocity := (0, 0, 0)
    valid := false }

/-- Embedding of `XRBackend::get_tracker_position` (lib.rs:261-309),
parameterized by the `f32::sqrt` model.  The result is `none` exactly when
the Rust code panics: `poses[index as usize]` with `index ≥ 16`. -/
def get_tracker_position (sqrtFn : ℚ → ℚ) (s : OpenVR) (index : ℕ) :
    Option TrackerPositionData :=
  match s.tracked_device_poses with
  | some poses =>
    if h : index < 16 then
      let pose := poses ⟨index, h⟩
      let m := pose.m
      let p : Vec3 := (m 0 3, m 1 3, m 2 3)
      let q0 := sqrtFn (max 0 (1 + m 0 0 + m 1 1 + m 2 2)) / 2
      let q1 := sqrtFn (max 0 (1 + m 0 0 - m 1 1 - m 2 2)) / 2
      let q2 := sqrtFn (max 0 (1 - m 0 0 + m 1 1 - m 2 2)) / 2
      let q3 := sqrtFn (max 0 (1 - m 0 0 - m 1 1 + m 2 2)) / 2
      let q1 := copysign q1 (m 2 1 - m 1 2)
      let q2 := copysign q2 (m 0 2 - m 2 0)
      let q3 := copysign q3 (m 1 0 - m 0 1)
      some { position := p
             rotation := { w := q0, x := q1, y := q2, z := q3 }
             velocity := pose.velocity
             angular_velocity := pose.angularVelocity
             valid := pose.connected && pose.poseValid }
    else none
  | none => some zeroPositionData

/-- Determinant of a 3x3 matrix (cofactor expansion along the first row). -/
def det3 (m : Mat3) : ℚ :=
  m 0 0 * (m 1 1 * m 2 2 - m 1 2 * m 2 1)
    - m 0 1 * (m 1 0 * m 2 2 - m 1 2 * m 2 0)
    + m 0 2 * (m 1 0 * m 2 1 - m 1 1 * m 2 0)

/-- The 3x3 minor of a 4x4 matrix obtained by deleting row `i`, column `j`. -/
def submatrix3 (m : Mat4) (i j : Fin 4) : Mat3 :=
  fun a b => m (i.succAbove a) (j.succAbove b)

/-- Determinant of a 4x4 matrix (cofactor expansion along the first row). -/
def det4 (m : Mat4) : ℚ :=
  m 0 0 * det3 (submatrix3 m 0 0)
    - m 0 1 * det3 (submatrix3 m 0 1)
    + m 0 2 * det3 (submatrix3 m 0 2)
    - m 0 3 * det3 (submatrix3 m 0 3)

/-- Model of `cgmath`'s `SquareMatrix::invert`: `None` exactly on a
singular matrix, otherwise the inverse via the adjugate. -/
def invert4 (m : Mat4) : Option Mat4 :=
  if det4 m = 0 then none
  else some fun i j =>
    ((-1 : ℚ) ^ (i.val + j.val) * det3 (submatrix3 m j i)) / det4 m

/-- Embedding of `extend_matrix_array` (lib.rs:433-440): append the
homogeneous row `[0, 0, 0, 1]`. -/
def extend_matrix_array (arr : Mat34) : Mat4 :=
  fun r c =>
    if h : r.val < 3 then arr ⟨r.val, h⟩ c
    else if c.val = 3 then 1 else 0

/-- Embedding of `array_to_matrix` (lib.rs:425-430): the row-major source
rows are fed to `Matrix4::new`'s column-major argument order, so the
constructed `Matrix4` holds exactly the same mathematical matrix. -/
def array_to_matrix (arr : Mat4) : Mat4 :=
  fun r c => arr r c

/-- Embedding of `XRBackend::get_gl_target_info` (lib.rs:335-364).  `none`
models an `invert().unwrap()` panic on a singular eye-to-head transform. -/
def get_gl_target_info (env : NativeEnv) (near far : ℚ) :
    Option (List XRTargetInfo) :=
  let left_trans := array_to_matrix (extend_matrix_array (env.eyeToHead .Left))
  let right_trans := array_to_matrix (extend_matrix_array (env.eyeToHead .Right))
  match invert4 left_trans, invert4 right_trans with
  | some left_inv, some right_inv =>
    let left_proj := array_to_matrix (env.projectionMatrix .Left near far)
    let right_proj := array_to_matrix (env.projectionMatrix .Right near far)
    let size := env.recommendedSize
    some [{ size := size, view_offset := left_inv, projection := left_proj },
          { size := size, view_offset := right_inv, projection := right_proj }]
  | _, _ => none

/-- One eye submission (lib.rs:380-393): the compositor's result is matched
only to log an error, the submission itself always happened. -/
def submitEye (env : NativeEnv) (eye : EyeSide) (gl_target : ℕ) :
    Option (EyeSide × ℕ) :=
  match env.submit eye gl_target with
  | .error _ => some (eye, gl_target)
  | .ok _ => some (eye, gl_target)

/-- Embedding of `XRBackend::submit_gl_target` (lib.rs:366-394): the value
is the submission performed (eye and handle); `none` means the invalid index
was logged and nothing was submitted. -/
def submit_gl_target (env : NativeEnv) (target_index : ℕ) (gl_target : ℕ) :
    Option (EyeSide × ℕ) :=
  match target_index with
  | 0 => submitEye env .Left gl_target
  | 1 => submitEye env .Right gl_target
  | _ => none

/-! ## Trace semantics for the tracker registry

A trace is a sequence of per-frame calls; each `wait` carries the native
layer's response for that call.  Running a trace from a state yields the
final state and the chronological log of (slot, added?) events the registry
reported: `(i, true)` when slot `i` was in a `get_new_trackers` result,
`(i, false)` when it was in a `get_removed_trackers` result. -/

/-- One registry-relevant call of the per-frame loop. -/
inductive TraceOp where
  | wait : Option Poses → TraceOp
  | getNew : TraceOp
  | getRemoved : TraceOp

/-- One step of the trace: the successor state and the slot events the call
reported. -/
def stepOp (env : NativeEnv) (op : TraceOp) (s : OpenVR) :
    OpenVR × List (Fin 16 × Bool) :=
  match op with
  | .wait resp => (waitWith resp s, [])
  | .getNew =>
    ((get_new_trackers env s).2,
     (newlyAdded s.registered_trackers s.tracked_device_poses).map fun i => (i, true))
  | .getRemoved =>
    ((get_removed_trackers s).2,
     (removedNow s.registered_trackers s.tracked_device_poses).map fun i => (i, false))

/-- Run a whole trace, concatenating the reported events in order. -/
def runTrace (env : NativeEnv) : List TraceOp → OpenVR → OpenVR × List (Fin 16 × Bool)
  | [], s => (s, [])
  | op :: ops, s =>
    ((runTrace env ops (stepOp env op s).1).1,
     (stepOp env op s).2 ++ (runTrace env ops (stepOp env op s).1).2)

/-- The chronological added/removed events of one slot within a log. -/
def slotEvents (i : Fin 16) (log : List (Fin 16 × Bool)) : List Bool :=
  log.filterMap fun e => if e.1 = i then some e.2 else none

/-- Checks that one slot's event list alternates correctly given its current
registration bit `r`: an `added` event (`true`) is legal only when the slot
is unregistered, a `removed` event (`false`) only when it is registered, and
each event flips the bit. -/
def slotOk : Bool → List Bool → Bool
  | _, [] => true
  | r, e :: rest => (e == !r) && slotOk e rest

/-- The registration bit after an event list (each event sets the bit). -/
def runReg : Bool → List Bool → Bool
  | r, [] => r
  | _, e :: rest => runReg e rest

/-- The effective registration bit of a slot in a backend state (a missing
registered-set counts as unregistered). -/
def regBit (s : OpenVR) (i : Fin 16) : Bool :=
  match s.registered_trackers with
  | some reg => reg i
  | none => false

/-! ## Concrete environments and snapshots used by the witnesses -/

/-- A trivial native environment: nothing connected, nothing resolvable. -/
def baseEnv : NativeEnv :=
  { waitGetPoses := none
    deviceProperty := fun _ => none
    componentCount := fun _ => 0
    componentName := fun _ _ => none
    loadRenderModel := fun _ => .ok none
    loadTexture := fun _ => .ok none
    isHMD := fun _ => false
    eyeToHead := fun _ => fun r c => if r.val = c.val then 1 else 0
    projectionMatrix := fun _ _ _ => fun _ _ => 0
    recommendedSize := (1512, 1680)
    submit := fun _ _ => .ok () }

/-- A pose sample that is connected (with a zero transform). -/
def connectedPose : DevicePose :=
  { connected := true
    poseValid := true
    m := fun _ _ => 0
    velocity := (0, 0, 0)
    angularVelocity := (0, 0, 0) }

/-- A pose sample that is disconnected. -/
def disconnectedPose : DevicePose :=
  { connectedPose with connected := false }

/-- A snapshot in which exactly the slots of `slots` are connected. -/
def posesWith (slots : List ℕ) : Poses :=
  fun i => if i.val ∈ slots then connectedPose else disconnectedPose

/-- A bare render model with no geometry and no diffuse texture. -/
def emptyModel : RenderModel :=
  { vertices := [], indices := [], diffuseTextureId := none }

/-- Environment for the C2 scenario: device 0's model `m` declares one
component `c`; loading `c` hard-fails, loading `m` itself succeeds. -/
def envC2 : NativeEnv :=
  { baseEnv with
    deviceProperty := fun i => if i = 0 then some "m" else none
    componentCount := fun nm => if nm = "m" then 1 else 0
    componentName := fun nm n => if nm = "m" && n = 0 then some "c" else none
    loadRenderModel := fun nm =>
      if nm = "c" then .error 7
      else if nm = "m" then .ok (some emptyModel)
      else .ok none }

/-- Component names of the C5 scenario. -/
def cnamesC5 : ℕ → String :=
  fun n => if n = 0 then "a" else if n = 1 then "b" else "p"

/-- Environment for the C5 scenario: device 0's model `m` declares three
components `a`, `b`, `p`; `a` and `b` are loaded, `p` is still in flight. -/
def envC5 : NativeEnv :=
  { baseEnv with
    deviceProperty := fun i => if i = 0 then some "m" else none
    componentCount := fun nm => if nm = "m" then 3 else 0
    componentName := fun nm n => if nm = "m" && n < 3 then some (cnamesC5 n) else none
    loadRenderModel := fun nm =>
      if nm = "a" || nm = "b" then .ok (some emptyModel) else .ok none }

/-- The per-part results of the C5 scenario seen through `load_model`. -/
def rsC5 : ℕ → Option TrackerComponentModelInfo :=
  fun n =>
    if n = 0 then some { component_name := some "a", vertices := [], indices := [], texture := none }
    else if n = 1 then some { component_name := some "b", vertices := [], indices := [], texture := none }
    else none

/-- Environment whose `wait_get_poses` succeeds with slots 2 and 5 connected. -/
def envSnap25 : NativeEnv :=
  { baseEnv with waitGetPoses := some (posesWith [2, 5]) }

/-- Environment for the C3 witness: a resolvable single-component model on
device 3 whose component is still loading. -/
def envC3 : NativeEnv :=
  { baseEnv with
    deviceProperty := fun i => if i = 3 then some "m" else none
    componentCount := fun nm => if nm = "m" then 1 else 0
    componentName := fun nm n => if nm = "m" && n = 0 then some "c" else none }

/-- A backend state holding a snapshot (used to exhibit the out-of-range
panic of `get_tracker_position`). -/
def stateWithSnapshot : OpenVR :=
  { tracked_device_poses := some (posesWith [0]), registered_trackers := none }

/-! ## Lemmas about the registry trace semantics -/

theorem slotEvents_cons (i : Fin 16) (e : Fin 16 × Bool) (log : List (Fin 16 × Bool)) :
    slotEvents i (e :: log) = (if e.1 = i then [e.2] else []) ++ slotEvents i log := by
  by_cases h : e.1 = i <;> simp [slotEvents, List.filterMap_cons, h]

theorem slotEvents_append (i : Fin 16) (a b : List (Fin 16 × Bool)) :
    slotEvents i (a ++ b) = slotEvents i a ++ slotEvents i b := by
  simp [slotEvents, List.filterMap_append]

theorem slotOk_append (r : Bool) (a b : List Bool) :
    slotOk r (a ++ b) = (slotOk r a && slotOk (runReg r a) b) := by
  induction a generalizing r with
  | nil => simp [slotOk, runReg]
  | cons e a ih => simp [slotOk, runReg, ih, Bool.and_assoc]

theorem slotEvents_of_filter (p : Fin 16 → Bool) (b : Bool) (i : Fin 16) :
    ∀ l : List (Fin 16), l.Nodup →
      slotEvents i ((l.filter p).map fun j => (j, b)) =
        if p i ∧ i ∈ l then [b] else []
  | [], _ => by simp [slotEvents]
  | j :: l, h => by
    have hj : j ∉ l := (List.nodup_cons.mp h).1
    have ih := slotEvents_of_filter p b i l (List.nodup_cons.mp h).2
    have hmem : (i ∈ j :: l) ↔ (j = i ∨ i ∈ l) := by
      rw [List.mem_cons]
      constructor
      · rintro (h1 | h1)
        · exact Or.inl h1.symm
        · exact Or.inr h1
      · rintro (h1 | h1)
        · exact Or.inl h1.symm
        · exact Or.inr h1
    by_cases hpj : p j = true
    · rw [List.filter_cons_of_pos hpj, List.map_cons, slotEvents_cons]
      by_cases hji : j = i
      · subst hji
        have hil : j ∉ l := hj
        simp [ih, hil, hpj]
      · simp only [hji, if_false, List.nil_append, ih, hmem]
        by_cases hpi : p i = true <;> simp [hpi, hji]
    · rw [List.filter_cons_of_neg hpj, ih]
      by_cases hji : j = i
      · subst hji
        simp [hpj]
      · simp [hmem, hji]

theorem slotEvents_finRange_filter (p : Fin 16 → Bool) (b : Bool) (i : Fin 16) :
    slotEvents i (((List.finRange 16).filter p).map fun j => (j, b)) =
      if p i then [b] else [] := by
  rw [slotEvents_of_filter p b i _ (List.nodup_finRange 16)]
  simp [List.mem_finRange]

theorem stepOp_slot (env : NativeEnv) (op : TraceOp) (s : OpenVR) (i : Fin 16) :
    slotOk (regBit s i) (slotEvents i (stepOp env op s).2) = true ∧
      regBit (stepOp env op s).1 i =
        runReg (regBit s i) (slotEvents i (stepOp env op s).2) := by
  cases op with
  | wait resp =>
    cases resp <;> simp [stepOp, waitWith, slotEvents, slotOk, runReg, regBit]
  | getNew =>
    cases hr : s.registered_trackers with
    | none =>
      cases hp : s.tracked_device_poses with
      | none =>
        simp [stepOp, get_new_trackers, newlyAdded, regAfterNew, hr, hp,
              slotEvents, slotOk, runReg, regBit]
      | some poses =>
        have hev := slotEvents_finRange_filter (fun j => (poses j).connected) true i
        simp only [stepOp, get_new_trackers, newlyAdded, regAfterNew, hr, hp, regBit, hev]
        by_cases hc : (poses i).connected = true <;> simp [hc, slotOk, runReg]
    | some reg =>
      cases hp : s.tracked_device_poses with
      | none =>
        simp [stepOp, get_new_trackers, newlyAdded, regAfterNew, hr, hp,
              slotEvents, slotOk, runReg, regBit]
      | some poses =>
        have hev := slotEvents_finRange_filter
          (fun j => !reg j && (poses j).connected) true i
        simp only [stepOp, get_new_trackers, newlyAdded, regAfterNew, hr, hp, regBit, hev]
        by_cases hq : (!reg i && (poses i).connected) = true
        · have hri : reg i = false := by
            rcases Bool.and_eq_true_iff.mp hq with ⟨h1, _⟩
            simpa using h1
          have hc : (poses i).connected = true := (Bool.and_eq_true_iff.mp hq).2
          simp [hq, hri, hc, slotOk, runReg]
        · simp [hq, slotOk, runReg]
  | getRemoved =>
    cases hr : s.registered_trackers with
    | none =>
      simp [stepOp, get_removed_trackers, removedNow, regAfterRemoved, hr,
            slotEvents, slotOk, runReg, regBit]
    | some reg =>
      cases hp : s.tracked_device_poses with
      | none =>
        simp [stepOp, get_removed_trackers, removedNow, regAfterRemoved, hr, hp,
              slotEvents, slotOk, runReg, regBit]
      | some poses =>
        have hev := slotEvents_finRange_filter
          (fun j => reg j && !(poses j).connected) false i
        simp only [stepOp, get_removed_trackers, removedNow, regAfterRemoved,
                   hr, hp, regBit, hev]
        by_cases hq : (reg i && !(poses i).connected) = true
        · have hri : reg i = true := (Bool.and_eq_true_iff.mp hq).1
          have hc : (poses i).connected = false := by
            have := (Bool.and_eq_true_iff.mp hq).2
            simpa using this
          simp [hq, hri, hc, slotOk, runReg]
        · simp [hq, slotOk, runReg]

theorem runTrace_slot (env : NativeEnv) (ops : List TraceOp) :
    ∀ (s : OpenVR) (i : Fin 16),
      slotOk (regBit s i) (slotEvents i (runTrace env ops s).2) = true := by
  induction ops with
  | nil => intro s i; simp [runTrace, slotEvents, slotOk]
  | cons op ops ih =>
    intro s i
    have hstep := stepOp_slot env op s i
    show slotOk (regBit s i)
        (slotEvents i ((stepOp env op s).2 ++ (runTrace env ops (stepOp env op s).1).2)) = true
    rw [slotEvents_append, slotOk_append, hstep.1, ← hstep.2]
    simpa using ih (stepOp env op s).1 i

/-- C1: along any sequence of `wait` / `get_new_trackers` /
`get_removed_trackers` calls starting from a fresh backend, each slot's
reported events alternate correctly from the unregistered state: a slot
appears in a `get_removed_trackers` result only if it appeared in an earlier
`get_new_trackers` result and has not been re-added since, and no slot is
reported as added twice without an intervening removal. -/
theorem registry_alternation (env : NativeEnv) (ops : List TraceOp) (i : Fin 16) :
    slotOk false (slotEvents i (runTrace env ops freshOpenVR).2) = true := by
  have h := runTrace_slot env ops freshOpenVR i
  simpa [regBit, freshOpenVR] using h

/-! ## Sign-copy helper (C4) -/

/-- C4 counterexample: with magnitude 1 and a zero sign source, the
sign-copy function returns `0`, not `+|1| = 1` as the claim states (the
claim says a zero sign source is treated as positive). -/
theorem copysign_zero_cex : copysign 1 0 ≠ |(1 : ℚ)| := by
  norm_num [copysign]

/-- C4 (amended): the sign-copy function treats a zero sign source as
zeroing, not as positive: it returns `0` when the sign source is `0`,
`|a|` for a positive sign source, and `-|a|` for a negative one. -/
theorem copysign_sign_behavior (a b : ℚ) :
    copysign a 0 = 0 ∧ (0 < b → copysign a b = |a|) ∧
      (b < 0 → copysign a b = -|a|) := by
  refine ⟨by simp [copysign], ?_, ?_⟩
  · intro hb
    rw [copysign, if_neg (ne_of_gt hb), signumQ, if_pos hb, mul_one]
  · intro hb
    rw [copysign, if_neg (ne_of_lt hb), signumQ, if_neg (not_lt.mpr hb.le),
        mul_neg_one]

theorem copysign_sign_behavior_witness :
    copysign 2 0 = 0 ∧ copysign 2 3 = |(2 : ℚ)| ∧ copysign 2 (-3) = -|(2 : ℚ)| :=
  ⟨(copysign_sign_behavior 2 3).1,
   (copysign_sign_behavior 2 3).2.1 (by norm_num),
   (copysign_sign_behavior 2 (-3)).2.2 (by norm_num)⟩

/-! ## Snapshot retention in `wait` (C7) -/

/-- C7: when the native pose wait fails, `wait` leaves the backend state —
in particular the stored pose snapshot — exactly as it was; the failure is
only logged (`wait` is a total function of the state, it cannot panic). -/
theorem wait_failure_retains_snapshot (env : NativeEnv) (s : OpenVR)
    (h : env.waitGetPoses = none) :
    (wait env s).tracked_device_poses = s.tracked_device_poses ∧
      wait env s = s := by
  constructor <;> simp [wait, waitWith, h]

theorem wait_failure_retains_snapshot_witness :
    (wait baseEnv freshOpenVR).tracked_device_poses =
        freshOpenVR.tracked_device_poses ∧
      wait baseEnv freshOpenVR = freshOpenVR :=
  wait_failure_retains_snapshot baseEnv freshOpenVR rfl

/-! ## Eye-index mapping of `submit_gl_target` (C9) -/

/-- C9: `submit_gl_target` submits eye index 0 to the left eye and 1 to the
right eye, both with the given handle; for any other index it performs no
submission (only a log line) and returns normally — the embedding is a
total function, so no error propagates and nothing crashes. -/
theorem submit_eye_mapping (env : NativeEnv) (h i : ℕ) :
    submit_gl_target env 0 h = some (.Left, h) ∧
      submit_gl_target env 1 h = some (.Right, h) ∧
      (2 ≤ i → submit_gl_target env i h = none) := by
  refine ⟨?_, ?_, ?_⟩
  · cases he : env.submit .Left h <;> simp [submit_gl_target, submitEye, he]
  · cases he : env.submit .Right h <;> simp [submit_gl_target, submitEye, he]
  · intro hi
    match i, hi with
    | (n + 2), _ => rfl

theorem submit_eye_mapping_witness :
    submit_gl_target baseEnv 0 7 = some (.Left, 7) ∧
      submit_gl_target baseEnv 1 7 = some (.Right, 7) ∧
      submit_gl_target baseEnv 2 7 = none :=
  ⟨(submit_eye_mapping baseEnv 7 2).1,
   (submit_eye_mapping baseEnv 7 2).2.1,
   (submit_eye_mapping baseEnv 7 2).2.2 (by norm_num)⟩

/-! ## Non-negative quaternion scalar component (C10) -/

/-- C10: whenever a snapshot exists (and the queried slot is within the
16-slot table, so the lookup does not panic), the scalar component of the
rotation quaternion returned by `get_tracker_position` is non-negative for
every input matrix: it is half the square root of a value clamped to at
least zero, and — unlike the three vector components — its sign is never
adjusted afterwards.  `sqrtFn` models `f32::sqrt`; the hypothesis that it
is non-negative on non-negative inputs holds for IEEE square root. -/
theorem rotation_w_nonneg (sqrtFn : ℚ → ℚ) (poses : Poses)
    (reg : Option (Fin 16 → Bool)) (index : ℕ) (h16 : index < 16)
    (hsqrt : ∀ x : ℚ, 0 ≤ x → 0 ≤ sqrtFn x) :
    ∃ d, get_tracker_position sqrtFn ⟨some poses, reg⟩ index = some d ∧
      0 ≤ d.rotation.w := by
  simp only [get_tracker_position, dif_pos h16]
  refine ⟨_, rfl, ?_⟩
  exact div_nonneg (hsqrt _ (le_max_left _ _)) (by norm_num)

theorem rotation_w_nonneg_witness :
    ∃ d, get_tracker_position (fun x => x) ⟨some (posesWith [0]), none⟩ 0 = some d ∧
      0 ≤ d.rotation.w :=
  rotation_w_nonneg (fun x => x) (posesWith [0]) none 0 (by norm_num)
    (fun _ hx => hx)

/-! ## Lazy initialization of the registered-set (C8) -/

/-- C8 counterexample: on a fresh backend no snapshot has ever been
captured, yet a single `get_new_trackers` call already creates the
registered-set (as all-`false`), so the set does not stay uninitialized
until the first successful pose snapshot. -/
theorem registered_set_init_cex :
    freshOpenVR.tracked_device_poses = none ∧
      freshOpenVR.registered_trackers = none ∧
      ((get_new_trackers baseEnv freshOpenVR).2.registered_trackers).isSome = true :=
  ⟨rfl, rfl, rfl⟩

/-- C8 (amended): the registered-set stays uninitialized until the first
`get_new_trackers` call, not until the first snapshot: `wait` and
`get_removed_trackers` never initialize it (and `get_removed_trackers`
reports nothing while it is uninitialized), while the first
`get_new_trackers` call initializes it whether or not a snapshot exists. -/
theorem registered_set_lazy_init (env : NativeEnv) (s : OpenVR)
    (h : s.registered_trackers = none) :
    (wait env s).registered_trackers = none ∧
      (get_removed_trackers s).2 = s ∧
      (get_removed_trackers s).1 = none ∧
      ((get_new_trackers env s).2.registered_trackers).isSome = true := by
  refine ⟨?_, ?_, ?_, ?_⟩
  · cases he : env.waitGetPoses <;> simp [wait, waitWith, he, h]
  · simp [get_removed_trackers, h]
  · simp [get_removed_trackers, h]
  · cases hp : s.tracked_device_poses <;>
      simp [get_new_trackers, regAfterNew, h, hp]

theorem registered_set_lazy_init_witness :
    (wait baseEnv freshOpenVR).registered_trackers = none ∧
      (get_removed_trackers freshOpenVR).2 = freshOpenVR ∧
      (get_removed_trackers freshOpenVR).1 = none ∧
      ((get_new_trackers baseEnv freshOpenVR).2.registered_trackers).isSome = true :=
  registered_set_lazy_init baseEnv freshOpenVR rfl

/-! ## First-frame behavior (C6) -/

/-- C6: starting from a fresh backend, once the first snapshot has been
captured by `wait`, the first `get_new_trackers` call reports exactly the
slots the snapshot shows as connected, in ascending slot order, and the
`get_removed_trackers` call of that frame reports nothing. -/
theorem first_snapshot_new_trackers (env : NativeEnv) (poses : Poses)
    (h : env.waitGetPoses = some poses) :
    ((get_new_trackers env (wait env freshOpenVR)).1).map (List.map Prod.fst) =
        some (((List.finRange 16).filter fun i => (poses i).connected).map Fin.val) ∧
      List.Pairwise (· < ·)
        (((List.finRange 16).filter fun i => (poses i).connected).map Fin.val) ∧
      (get_removed_trackers (get_new_trackers env (wait env freshOpenVR)).2).1 = none := by
  have hs1 : wait env freshOpenVR =
      ⟨some poses, none⟩ := by
    simp [wait, waitWith, h, freshOpenVR]
  refine ⟨?_, ?_, ?_⟩
  · rw [hs1]
    simp [get_new_trackers, newlyAdded, List.map_map, Function.comp]
  · refine List.Pairwise.map _ (fun a b hab => ?_)
      ((List.pairwise_lt_finRange 16).sublist (List.filter_sublist _))
    exact hab
  · rw [hs1]
    have hreg : (get_new_trackers env (⟨some poses, none⟩ : OpenVR)).2 =
        ⟨some poses, some fun i => (poses i).connected⟩ := by
      simp [get_new_trackers, regAfterNew]
    rw [hreg]
    have hnone : removedNow (some fun i => (poses i).connected) (some poses) = [] := by
      simp [removedNow]
    simp [get_removed_trackers, hnone]

theorem first_snapshot_new_trackers_witness :
    ((get_new_trackers envSnap25 (wait envSnap25 freshOpenVR)).1).map
        (List.map Prod.fst) = some [2, 5] ∧
      (get_removed_trackers
        (get_new_trackers envSnap25 (wait envSnap25 freshOpenVR)).2).1 = none := by
  have h := first_snapshot_new_trackers envSnap25 (posesWith [2, 5]) rfl
  refine ⟨?_, h.2.2⟩
  rw [h.1]
  decide

/-! ## Component loading lemmas (C5, C2) -/

theorem loadComponents_ok (env : NativeEnv) (name : String)
    (cnames : ℕ → String) (rs : ℕ → Option TrackerComponentModelInfo) :
    ∀ l : List ℕ,
      (∀ n ∈ l, env.componentName name n = some (cnames n)) →
      (∀ n ∈ l, load_model env (cnames n) = .ok (rs n)) →
      loadComponents env name l = some (.ok (l.map rs))
  | [], _, _ => rfl
  | n :: l, hn, hr => by
    have h1 := hn n (List.mem_cons_self n l)
    have h2 := hr n (List.mem_cons_self n l)
    have ih := loadComponents_ok env name cnames rs l
      (fun m hm => hn m (List.mem_cons_of_mem n hm))
      (fun m hm => hr m (List.mem_cons_of_mem n hm))
    simp [loadComponents, h1, h2, ih]

theorem collect_infos_pending :
    ∀ l : List (Option TrackerComponentModelInfo),
      none ∈ l → collect_infos l = .Pending
  | none :: _, _ => rfl
  | some m :: l, h => by
    have hl : none ∈ l := by
      rcases List.mem_cons.mp h with h1 | h1
      · exact absurd h1 (by simp)
      · exact h1
    simp [collect_infos, collect_infos_pending l hl]

theorem collect_infos_all (infos : ℕ → TrackerComponentModelInfo) :
    ∀ l : List ℕ,
      collect_infos (l.map fun n => some (infos n)) = .Available (l.map infos)
  | [] => rfl
  | n :: l => by simp [collect_infos, collect_infos_all infos l]

/-- C5: for a device whose render-model name resolves and whose model
declares components (all of whose names resolve), if every component load
returns without a hard failure but at least one is still in flight, the
whole `get_tracker_models` call is `Pending` — never a partial `Available`;
and if every component is ready the call is `Available` with the parts in
component enumeration order. -/
theorem components_aggregation (env : NativeEnv) (slot : ℕ) (name : String)
    (cnames : ℕ → String) (rs : ℕ → Option TrackerComponentModelInfo)
    (hname : env.deviceProperty slot = some name)
    (hcc : 0 < env.componentCount name)
    (hn : ∀ n < env.componentCount name, env.componentName name n = some (cnames n))
    (hr : ∀ n < env.componentCount name, load_model env (cnames n) = .ok (rs n)) :
    ((∃ n, n < env.componentCount name ∧ rs n = none) →
        get_tracker_models env slot = some .Pending) ∧
      ∀ infos : ℕ → TrackerComponentModelInfo,
        (∀ n < env.componentCount name, rs n = some (infos n)) →
        get_tracker_models env slot =
          some (.Available ((List.range (env.componentCount name)).map infos)) := by
  have hne : ¬ env.componentCount name = 0 := Nat.pos_iff_ne_zero.mp hcc
  have hload : loadComponents env name (List.range (env.componentCount name)) =
      some (.ok ((List.range (env.componentCount name)).map rs)) :=
    loadComponents_ok env name cnames rs _
      (fun n hm => hn n (List.mem_range.mp hm))
      (fun n hm => hr n (List.mem_range.mp hm))
  constructor
  · rintro ⟨n, hlt, hnone⟩
    have hmem : none ∈ (List.range (env.componentCount name)).map rs := by
      rw [← hnone]
      exact List.mem_map_of_mem rs (List.mem_range.mpr hlt)
    have hgmc : get_model_components env name = some .Pending := by
      rw [get_model_components, if_neg hne, hload]
      simp [collect_infos_pending _ hmem]
    simp [get_tracker_models, hname, hgmc]
  · intro infos hinf
    have hmapeq : (List.range (env.componentCount name)).map rs =
        (List.range (env.componentCount name)).map (fun n => some (infos n)) :=
      List.map_congr_left fun n hm => hinf n (List.mem_range.mp hm)
    have hgmc : get_model_components env name =
        some (.Available ((List.range (env.componentCount name)).map infos)) := by
      rw [get_model_components, if_neg hne, hload, hmapeq]
      simp [collect_infos_all]
    simp [get_tracker_models, hname, hgmc]

theorem components_aggregation_witness :
    get_tracker_models envC5 0 = some .Pending := by
  have h := components_aggregation envC5 0 "m" cnamesC5 rsC5 rfl (by decide)
    (by intro n hn; have hn' : n < 3 := hn; interval_cases n <;> rfl)
    (by intro n hn; have hn' : n < 3 := hn; interval_cases n <;> rfl)
  exact h.1 ⟨2, by decide, rfl⟩

theorem loadComponents_error (env : NativeEnv) (name : String)
    (cnames : ℕ → String) :
    ∀ l : List ℕ,
      (∀ n ∈ l, env.componentName name n = some (cnames n)) →
      (∃ n ∈ l, ∃ e, load_model env (cnames n) = .error e) →
      ∃ e, loadComponents env name l = some (.error e)
  | [], _, h => absurd h (by simp)
  | n :: l, hn, hex => by
    have h1 := hn n (List.mem_cons_self n l)
    cases hln : load_model env (cnames n) with
    | error e => exact ⟨e, by simp [loadComponents, h1, hln]⟩
    | ok r =>
      have hex' : ∃ m ∈ l, ∃ e, load_model env (cnames m) = .error e := by
        rcases hex with ⟨m, hm, e, he⟩
        rcases List.mem_cons.mp hm with h2 | h2
        · subst h2; rw [hln] at he; cases he
        · exact ⟨m, h2, e, he⟩
      rcases loadComponents_error env name cnames l
        (fun m hm => hn m (List.mem_cons_of_mem n hm)) hex' with ⟨e, hl⟩
      exact ⟨e, by simp [loadComponents, h1, hln, hl]⟩

/-- C2 (amended): if the device's render-model name resolves, its model
declares components whose names all resolve, and loading some component
hard-fails, then the component path reports `Unavailable` and
`get_tracker_models` *falls back* to loading the model as monolithic: the
whole call returns the monolithic load's status, so it is `Unavailable`
only when that fallback also fails — not unconditionally, as the claim
states. -/
theorem component_failure_falls_back (env : NativeEnv) (slot : ℕ) (name : String)
    (cnames : ℕ → String)
    (hname : env.deviceProperty slot = some name)
    (hcc : 0 < env.componentCount name)
    (hn : ∀ n < env.componentCount name, env.componentName name n = some (cnames n))
    (herr : ∃ n, n < env.componentCount name ∧
      ∃ e, load_model env (cnames n) = .error e) :
    get_model_components env name = some .Unavailable ∧
      get_tracker_models env slot = some (get_model_full env name) := by
  rcases loadComponents_error env name cnames (List.range (env.componentCount name))
      (fun n hm => hn n (List.mem_range.mp hm))
      (by rcases herr with ⟨n, hlt, e, he⟩
          exact ⟨n, List.mem_range.mpr hlt, e, he⟩) with ⟨e, hl⟩
  have hgmc : get_model_components env name = some .Unavailable := by
    rw [get_model_components, if_neg (Nat.pos_iff_ne_zero.mp hcc), hl]
  exact ⟨hgmc, by simp [get_tracker_models, hname, hgmc]⟩

/-- C2 counterexample: in `envC2` device 0's model name resolves to `"m"`,
which declares exactly one component `"c"` whose load hard-fails, yet
`get_tracker_models` does not return `Unavailable` for the whole call: the
monolithic fallback load of `"m"` succeeds, so the call is `Available`. -/
theorem component_failure_cex :
    envC2.deviceProperty 0 = some "m" ∧
      envC2.componentCount "m" = 1 ∧
      load_model envC2 "c" = .error 7 ∧
      get_tracker_models envC2 0 ≠ some .Unavailable := by
  refine ⟨rfl, rfl, rfl, ?_⟩
  decide

theorem component_failure_falls_back_witness :
    get_model_components envC2 "m" = some .Unavailable ∧
      get_tracker_models envC2 0 = some (get_model_full envC2 "m") :=
  component_failure_falls_back envC2 0 "m" (fun _ => "c") rfl (by decide)
    (by intro n hn; have hn' : n < 1 := hn; interval_cases n; rfl)
    ⟨0, by decide, 7, rfl⟩

/-! ## Per-frame totality and graceful degradation (C3) -/

theorem loadComponents_isSome (env : NativeEnv) (name : String) :
    ∀ l : List ℕ, (∀ n ∈ l, (env.componentName name n).isSome) →
      (loadComponents env name l).isSome
  | [], _ => rfl
  | n :: l, h => by
    have h1 := h n (List.mem_cons_self n l)
    cases hcn : env.componentName name n with
    | none => rw [hcn] at h1; cases h1
    | some cn =>
      have ih := loadComponents_isSome env name l
        (fun m hm => h m (List.mem_cons_of_mem n hm))
      cases hlm : load_model env cn with
      | error e => simp [loadComponents, hcn, hlm]
      | ok r =>
        cases hlc : loadComponents env name l with
        | none => rw [hlc] at ih; cases ih
        | some x => cases x <;> simp [loadComponents, hcn, hlm, hlc]

theorem get_model_components_isSome (env : NativeEnv) (name : String)
    (h : ∀ n < env.componentCount name, (env.componentName name n).isSome) :
    (get_model_components env name).isSome := by
  rw [get_model_components]
  by_cases hcc : env.componentCount name = 0
  · simp [hcc]
  · have hls := loadComponents_isSome env name (List.range (env.componentCount name))
      (fun n hm => h n (List.mem_range.mp hm))
    cases hlc : loadComponents env name (List.range (env.componentCount name)) with
    | none => rw [hlc] at hls; cases hls
    | some x => cases x <;> simp [hcc, hlc]

theorem get_tracker_models_isSome (env : NativeEnv) (index : ℕ)
    (h : ∀ name n, n < env.componentCount name → (env.componentName name n).isSome) :
    (get_tracker_models env index).isSome := by
  rw [get_tracker_models]
  cases hdp : env.deviceProperty index with
  | none => rfl
  | some name =>
    have hg := get_model_components_isSome env name (h name)
    cases hgc : get_model_components env name with
    | none => rw [hgc] at hg; cases hg
    | some st => cases st <;> simp [hgc]

/-- C3 counterexample: with a snapshot present, `get_tracker_position` on
slot 16 evaluates `poses[16]` on the 16-entry pose array; the embedding's
`none` marks exactly that Rust index-out-of-bounds panic, so the operation
does not terminate normally for every input. -/
theorem per_frame_abort_cex :
    stateWithSnapshot.tracked_device_poses.isSome = true ∧
      get_tracker_position (fun x => x) stateWithSnapshot 16 = none :=
  ⟨rfl, rfl⟩

/-- C3 (amended): the per-frame operations degrade to sentinel results and
cannot abort except through three specific panics.  `wait`,
`get_new_trackers`, `get_removed_trackers`, `get_tracker_capabilities` and
`submit_gl_target` are total functions of the state and the native response
(no panic marker in their types).  `get_tracker_position` returns a value
for every in-range slot and the zero sentinel pose for every slot while no
snapshot exists, but panics on an out-of-range slot once a snapshot exists;
`get_tracker_models` returns a value whenever the native layer resolves a
component name for every index below the declared component count, and the
`Unavailable` sentinel when the model-name property is missing (the
capability sentinel is a zero component count); `get_gl_target_info`
returns a value whenever both extended eye-to-head transforms are
invertible; `submit_gl_target` skips submission on an invalid eye index. -/
theorem per_frame_degrades (sqrtFn : ℚ → ℚ) (env : NativeEnv) (s : OpenVR)
    (index handle : ℕ) (near far : ℚ) :
    (index < 16 → (get_tracker_position sqrtFn s index).isSome) ∧
      (s.tracked_device_poses = none →
        get_tracker_position sqrtFn s index = some zeroPositionData) ∧
      ((∀ name n, n < env.componentCount name → (env.componentName name n).isSome) →
        (get_tracker_models env index).isSome) ∧
      (env.deviceProperty index = none →
        get_tracker_models env index = some .Unavailable) ∧
      (env.deviceProperty index = none →
        (get_tracker_capabilities env index).render_model_components = 0) ∧
      (det4 (array_to_matrix (extend_matrix_array (env.eyeToHead .Left))) ≠ 0 →
        det4 (array_to_matrix (extend_matrix_array (env.eyeToHead .Right))) ≠ 0 →
        (get_gl_target_info env near far).isSome) ∧
      (2 ≤ index → submit_gl_target env index handle = none) := by
  refine ⟨?_, ?_, ?_, ?_, ?_, ?_, ?_⟩
  · intro h16
    cases hp : s.tracked_device_poses with
    | none => simp [get_tracker_position, hp]
    | some poses => simp [get_tracker_position, hp, dif_pos h16]
  · intro hp
    simp [get_tracker_position, hp]
  · exact get_tracker_models_isSome env index
  · intro hdp
    simp [get_tracker_models, hdp]
  · intro hdp
    simp [get_tracker_capabilities, hdp]
  · intro hl hr
    rw [get_gl_target_info, invert4, if_neg hl, invert4, if_neg hr]
    simp
  · intro hi
    match index, hi with
    | (n + 2), _ => rfl

theorem per_frame_degrades_witness :
    (get_tracker_position (fun x => x) freshOpenVR 3).isSome = true ∧
      get_tracker_position (fun x => x) freshOpenVR 3 = some zeroPositionData ∧
      (get_tracker_models envC3 3).isSome = true ∧
      get_tracker_models envC3 5 = some .Unavailable ∧
      (get_tracker_capabilities envC3 5).render_model_components = 0 ∧
      (get_gl_target_info envC3 0 1).isSome = true ∧
      submit_gl_target envC3 2 9 = none := by
  have hnames : ∀ name n, n < envC3.componentCount name →
      (envC3.componentName name n).isSome := by
    intro name n hn
    by_cases hm : name = "m"
    · subst hm
      have hn' : n < 1 := hn
      interval_cases n
      rfl
    · have h0 : envC3.componentCount name = 0 := by
        simp [envC3, baseEnv, hm]
      rw [h0] at hn
      exact absurd hn (by norm_num)
  have h3 := per_frame_degrades (fun x => x) envC3 freshOpenVR 3 9 0 1
  have h5 := per_frame_degrades (fun x => x) envC3 freshOpenVR 5 9 0 1
  have h2 := per_frame_degrades (fun x => x) envC3 freshOpenVR 2 9 0 1
  exact ⟨h3.1 (by norm_num), h3.2.1 rfl, h3.2.2.1 hnames,
    h5.2.2.2.1 rfl, h5.2.2.2.2.1 rfl,
    h3.2.2.2.2.2.1
      (by simp [envC3, baseEnv, array_to_matrix, extend_matrix_array, det4,
                det3, submatrix3, Fin.succAbove])
      (by simp [envC3, baseEnv, array_to_matrix, extend_matrix_array, det4,
                det3, submatrix3, Fin.succAbove]),
    h2.2.2.2.2.2.2 (by norm_num)⟩

end AmethystOpenVR
